import Mathlib

/-!
# Verification of the productivity-app core (session auth + owned-note CRUD)

Shallow embedding of the Flask productivity app (`models.py`, `app.py`,
`config.py`).  Database rows become Lean structures, the SQLAlchemy session
becomes explicit state passing, timestamps become a `Nat` logical clock, and
each HTTP handler becomes a pure function from (state, session, request) to
(response, new state).
-/

namespace ProductivityApp

/-! ## Python string primitives

Models of the Python string operations the source uses, written over the
character list so that they compute by structural recursion: `str.strip()`,
`str.lower()`, the `in` membership test, and `len`. -/

/-- Python `s.strip()`: drop whitespace from both ends. -/
def pyStrip (s : String) : String :=
  String.mk
    (((s.data.dropWhile Char.isWhitespace).reverse.dropWhile
        Char.isWhitespace).reverse)

/-- Python `s.lower()`. -/
def pyLower (s : String) : String :=
  String.mk (s.data.map Char.toLower)

/-- Python `c in s` for a single character `c`. -/
def pyContains (s : String) (c : Char) : Bool :=
  s.data.contains c

/-- Python `len(s)`: the number of characters. -/
def pyLen (s : String) : Nat :=
  s.data.length

/-- A user row of the `users` table (`models.py`, class `User`).
`passwordHash` models the `_password_hash` column: `none` while unset
(column is declared `nullable=False`, enforced at commit). -/
structure User where
  id : Nat
  username : String
  email : String
  passwordHash : Option String
  createdAt : Nat
deriving Repr, DecidableEq

/-- A note row of the `notes` table (`models.py`, class `Note`). -/
structure Note where
  id : Nat
  title : String
  content : String
  createdAt : Nat
  updatedAt : Nat
  userId : Nat
deriving Repr, DecidableEq

/-- The database state: the two tables in insertion order, plus the
autoincrement counters for the surrogate integer primary keys. -/
structure AppState where
  users : List User
  notes : List Note
  nextUserId : Nat
  nextNoteId : Nat
deriving Repr, DecidableEq

/-- The Flask session cookie payload: just the optional `user_id` key. -/
structure Session where
  userId : Option Nat
deriving Repr, DecidableEq

/-! ## Credential store (`models.py`, `User.password_hash` setter /
`User.authenticate`) -/

/-- Model of `bcrypt.generate_password_hash`: an opaque digest of the
plaintext.  No claim inspects the digest contents; the definition only has to
be a function of the plaintext. -/
def generate_password_hash (password : String) : String :=
  String.append "bcrypt$" password

/-- `User.password_hash` setter (`models.py` lines 38-43):
`if password: self._password_hash = bcrypt.generate_password_hash(...)`.
The `Except` result records whether the setter raises: the source raises on
no input, so both branches return `.ok`; an empty password leaves the stored
hash untouched. -/
def password_hash_set (u : User) (password : String) : Except String User :=
  if password ≠ "" then
    Except.ok { u with passwordHash := some (generate_password_hash password) }
  else
    Except.ok u

/-- `User.authenticate` (`models.py` lines 45-49): true iff a hash is stored,
the password is non-empty, and the hash checks out. -/
def authenticate (u : User) (password : String) : Bool :=
  match u.passwordHash with
  | some h => password ≠ "" && h == generate_password_hash password
  | none => false

/-! ## Serialization layer (`models.py`, `UserSchema` / `NoteSchema`) -/

/-- The external form of a user produced by `UserSchema.dump`: exactly the
fields `id`, `username`, `email`, `created_at` (`models.py` lines 100-108). -/
structure UserExt where
  id : Nat
  username : String
  email : String
  createdAt : Nat
deriving Repr, DecidableEq

/-- `UserSchema().dump(user)`. -/
def user_schema_dump (u : User) : UserExt :=
  { id := u.id, username := u.username, email := u.email,
    createdAt := u.createdAt }

/-- The external form of a note produced by `NoteSchema.dump`
(`models.py` lines 111-119): the note columns plus the nested owner dump
restricted to `id` and `username`. -/
structure NoteExt where
  id : Nat
  title : String
  content : String
  createdAt : Nat
  updatedAt : Nat
  userId : Nat
  user : Option (Nat × String)
deriving Repr, DecidableEq

/-- `NoteSchema().dump(note)`: the nested `user` field follows the
`backref` relationship to the owning user row. -/
def note_schema_dump (st : AppState) (n : Note) : NoteExt :=
  { id := n.id, title := n.title, content := n.content,
    createdAt := n.createdAt, updatedAt := n.updatedAt, userId := n.userId,
    user := (st.users.find? (fun u => u.id == n.userId)).map
              (fun u => (u.id, u.username)) }

/-! ## Requests and responses -/

/-- Pagination metadata as returned by `NotesResource.get`
(`app.py` lines 172-179). -/
structure PaginationMeta where
  page : Nat
  perPage : Nat
  total : Nat
  totalPages : Nat
  hasNext : Bool
  hasPrev : Bool
deriving Repr, DecidableEq

/-- The `{'notes': ..., 'pagination': ...}` payload of `GET /notes`. -/
structure NotesPage where
  notes : List NoteExt
  pagination : PaginationMeta
deriving Repr, DecidableEq

/-- A JSON response body, as the handlers build them: a dumped user, a dumped
note, a notes page, `{'error': msg}`, `{'errors': [msgs]}`, or the empty body
of a 204. -/
inductive Body where
  | userB : UserExt → Body
  | noteB : NoteExt → Body
  | pageB : NotesPage → Body
  | errorB : String → Body
  | errorsB : List String → Body
  | emptyB : Body
deriving Repr, DecidableEq

/-- An HTTP status code paired with a body. -/
abbrev Response := Nat × Body

/-- The JSON body of `POST /signup`: each field is absent (`none`) or a
string; `extra` records whether the object has any other keys, so that the
truthiness test `if not data` on the parsed dict is expressible. -/
structure SignupData where
  username : Option String
  email : Option String
  password : Option String
  extra : Bool
deriving Repr, DecidableEq

/-- Python truthiness of the parsed signup dict. -/
def SignupData.truthy (d : SignupData) : Bool :=
  d.username.isSome || d.email.isSome || d.password.isSome || d.extra

/-- The JSON body of `POST /notes` and `PATCH /notes/<id>`: optional `title`
and `content` keys plus a flag for the presence of any other keys. -/
structure NoteBody where
  title : Option String
  content : Option String
  extra : Bool
deriving Repr, DecidableEq

/-- Python truthiness of the parsed note dict. -/
def NoteBody.truthy (b : NoteBody) : Bool :=
  b.title.isSome || b.content.isSome || b.extra

/-- Python truthiness of an optional string value, as used by
`data.get(field)` checks: `None` and `''` are falsy. -/
def strTruthy : Option String → Bool
  | some s => s != ""
  | none => false

/-! ## Model validators (`models.py`, `@validates` hooks) -/

/-- `User.validate_username` (`models.py` lines 51-56): raises unless the
trimmed username has at least 3 characters; stores the trimmed value. -/
def validate_username (username : String) : Except String String :=
  if username = "" ∨ pyLen (pyStrip username) < 3 then
    Except.error "Username must be at least 3 characters long"
  else
    Except.ok (pyStrip username)

/-- `User.validate_email` (`models.py` lines 58-63): raises unless the email
contains an `@`; stores the lowercased, trimmed value. -/
def validate_email (email : String) : Except String String :=
  if email = "" ∨ ¬ pyContains email '@' then
    Except.error "Please provide a valid email address"
  else
    Except.ok (pyStrip (pyLower email))

/-- `Note.validate_title` (`models.py` lines 86-93): raises when the title is
empty or blank after trimming, or longer than 200 characters after trimming;
stores the trimmed value. -/
def validate_title (title : String) : Except String String :=
  if title = "" ∨ pyLen (pyStrip title) < 1 then
    Except.error "Note title is required"
  else if pyLen (pyStrip title) > 200 then
    Except.error "Note title must be less than 200 characters"
  else
    Except.ok (pyStrip title)

/-! ## Authentication helpers (`app.py` lines 23-38) -/

/-- `get_current_user`: resolve the session's `user_id` to a user row. -/
def get_current_user (st : AppState) (sess : Session) : Option User :=
  match sess.userId with
  | some uid => st.users.find? (fun u => u.id == uid)
  | none => none

/-! ## `Signup.post` (`app.py` lines 45-88)

The commit step models the database constraints the handler's
`except IntegrityError` branch inspects: the UNIQUE constraints on
`users.username` and `users.email` (checked in column order, the
constraint name appearing in `str(e)`), with the generic 422 fallback for
any other integrity failure (e.g. the NOT NULL on `_password_hash`, whose
message names neither column). -/

/-- `Signup.post`: returns the response, the database state after the
request, and the session after the request (`session['user_id']` is set on
success). `now` is the request's clock instant used for `created_at`. -/
def signup (st : AppState) (sess : Session) (data : Option SignupData)
    (now : Nat) : Response × AppState × Session :=
  match data with
  | none => ((400, Body.errorsB ["No data provided"]), st, sess)
  | some d =>
    if !d.truthy then ((400, Body.errorsB ["No data provided"]), st, sess)
    else
      let missing :=
        (if strTruthy d.username then [] else ["username"]) ++
        (if strTruthy d.email then [] else ["email"]) ++
        (if strTruthy d.password then [] else ["password"])
      if missing ≠ [] then
        ((400, Body.errorsB
          [String.append "Missing required fields: "
            (String.intercalate ", " missing)]), st, sess)
      else
        match validate_username (d.username.getD "") with
        | Except.error msg => ((422, Body.errorsB [msg]), st, sess)
        | Except.ok uname =>
          match validate_email (d.email.getD "") with
          | Except.error msg => ((422, Body.errorsB [msg]), st, sess)
          | Except.ok email =>
            match password_hash_set
                { id := st.nextUserId, username := uname, email := email,
                  passwordHash := none, createdAt := now }
                (d.password.getD "") with
            | Except.error msg => ((422, Body.errorsB [msg]), st, sess)
            | Except.ok newUser =>
              if st.users.any (fun u => u.username == uname) then
                ((422, Body.errorsB ["Username already exists"]), st, sess)
              else if st.users.any (fun u => u.email == email) then
                ((422, Body.errorsB ["Email already exists"]), st, sess)
              else if newUser.passwordHash.isNone then
                ((422, Body.errorsB ["Registration failed"]), st, sess)
              else
                ((201, Body.userB (user_schema_dump newUser)),
                 { st with users := st.users ++ [newUser],
                           nextUserId := st.nextUserId + 1 },
                 { userId := some newUser.id })

/-! ## `NotesResource.get` (`app.py` lines 146-180): paginated listing -/

/-- Insert a note into a list sorted by `updatedAt` descending, before the
first element whose `updatedAt` does not exceed it.  Together with
`sortByUpdatedDesc` this models `ORDER BY updated_at DESC` over rows stored
in insertion (rowid) order: a stable descending sort, ties keeping their
stored order. -/
def insertByUpdatedDesc (n : Note) : List Note → List Note
  | [] => [n]
  | m :: ms =>
    if n.updatedAt ≥ m.updatedAt then n :: m :: ms
    else m :: insertByUpdatedDesc n ms

/-- Stable sort by `updatedAt` descending (model of
`order_by(Note.updated_at.desc())` over a rowid-ordered table scan). -/
def sortByUpdatedDesc : List Note → List Note
  | [] => []
  | n :: ns => insertByUpdatedDesc n (sortByUpdatedDesc ns)

/-- The paginated notes payload for an authenticated user.  The clamping
sequence follows the source: the handler defaults a missing `page` to 1 and a
missing `per_page` to 10 (`request.args.get(..., type=int)`), then applies
`per_page = min(per_page, 100)`; `paginate(..., error_out=False)`
(flask-sqlalchemy) then replaces `page < 1` by 1 and `per_page < 1` by its
default 20, computes `pages = ceil(total / per_page)` (0 when `total = 0`),
`has_next = page < pages` and `has_prev = page > 1`, and slices the ordered
rows. -/
def notes_index (st : AppState) (user : User)
    (pageArg perPageArg : Option Int) : NotesPage :=
  let page0 : Int := pageArg.getD 1
  let perPage0 : Int := min (perPageArg.getD 10) 100
  let page : Nat := (if page0 < 1 then 1 else page0).toNat
  let perPage : Nat := (if perPage0 < 1 then 20 else perPage0).toNat
  let sorted := sortByUpdatedDesc (st.notes.filter (fun n => n.userId == user.id))
  let total := sorted.length
  let pages := (total + perPage - 1) / perPage
  { notes := ((sorted.drop ((page - 1) * perPage)).take perPage).map
      (note_schema_dump st),
    pagination :=
      { page := page, perPage := perPage, total := total, totalPages := pages,
        hasNext := decide (page < pages), hasPrev := decide (1 < page) } }

/-- `NotesResource.get`: 401 without a session; an unresolvable `user_id`
hits `user.id` as an uncaught `AttributeError` (no try block), i.e. a plain
500. -/
def notes_resource_get (st : AppState) (sess : Session)
    (pageArg perPageArg : Option Int) : Response :=
  match sess.userId with
  | none => (401, Body.errorB "Authentication required")
  | some uid =>
    match st.users.find? (fun u => u.id == uid) with
    | none => (500, Body.errorB "Internal Server Error")
    | some user => (200, Body.pageB (notes_index st user pageArg perPageArg))

/-! ## `NotesResource.post` (`app.py` lines 182-213): create -/

/-- `NotesResource.post`.  The body checks (400s) precede the dereference of
the current user (`user.id` is evaluated while building `Note(...)`, so an
unresolvable session user becomes the generic 500 of the `except` clause);
`Note.validate_title` fires inside the constructor and maps to 422. -/
def notes_resource_post (st : AppState) (sess : Session)
    (data : Option NoteBody) (now : Nat) : Response × AppState :=
  match sess.userId with
  | none => ((401, Body.errorB "Authentication required"), st)
  | some uid =>
    match data with
    | none => ((400, Body.errorsB ["No data provided"]), st)
    | some b =>
      if !b.truthy then ((400, Body.errorsB ["No data provided"]), st)
      else if !strTruthy b.title then
        ((400, Body.errorsB ["Title is required"]), st)
      else
        match st.users.find? (fun u => u.id == uid) with
        | none => ((500, Body.errorsB ["Failed to create note"]), st)
        | some user =>
          match validate_title (b.title.getD "") with
          | Except.error msg => ((422, Body.errorsB [msg]), st)
          | Except.ok t =>
            let newNote : Note :=
              { id := st.nextNoteId, title := t,
                content := b.content.getD "", createdAt := now,
                updatedAt := now, userId := user.id }
            let st' := { st with notes := st.notes ++ [newNote],
                                 nextNoteId := st.nextNoteId + 1 }
            ((201, Body.noteB (note_schema_dump st' newNote)), st')

/-! ## `NoteResource` (`app.py` lines 216-278): get / patch / delete -/

/-- `Note.query.filter_by(id=note_id, user_id=user.id).first()`: the
ownership-scoped lookup shared by all three single-note handlers. -/
def note_lookup (st : AppState) (noteId uid : Nat) : Option Note :=
  st.notes.find? (fun n => n.id == noteId && n.userId == uid)

/-- `NoteResource.get`. -/
def note_resource_get (st : AppState) (sess : Session) (noteId : Nat) :
    Response :=
  match sess.userId with
  | none => (401, Body.errorB "Authentication required")
  | some uid =>
    match st.users.find? (fun u => u.id == uid) with
    | none => (500, Body.errorB "Internal Server Error")
    | some user =>
      match note_lookup st noteId user.id with
      | none => (404, Body.errorB "Note not found")
      | some n => (200, Body.noteB (note_schema_dump st n))

/-- `NoteResource.patch`.  A key present in the body marks the attribute
modified, so the commit issues an UPDATE and the column's
`onupdate=datetime.utcnow` refreshes `updated_at`; a body carrying neither
`title` nor `content` leaves the row clean and the commit writes nothing.
A title failing `validate_title` raises before `content` is assigned and the
handler rolls back, leaving the state unchanged. -/
def note_resource_patch (st : AppState) (sess : Session) (noteId : Nat)
    (data : Option NoteBody) (now : Nat) : Response × AppState :=
  match sess.userId with
  | none => ((401, Body.errorB "Authentication required"), st)
  | some uid =>
    match st.users.find? (fun u => u.id == uid) with
    | none => ((500, Body.errorsB ["Failed to update note"]), st)
    | some user =>
      match note_lookup st noteId user.id with
      | none => ((404, Body.errorB "Note not found"), st)
      | some note =>
        match data with
        | none => ((400, Body.errorsB ["No data provided"]), st)
        | some b =>
          if !b.truthy then ((400, Body.errorsB ["No data provided"]), st)
          else
            match (match b.title with
                   | some t => Except.map some (validate_title t)
                   | none => Except.ok none) with
            | Except.error msg => ((422, Body.errorsB [msg]), st)
            | Except.ok tOpt =>
              let dirty := b.title.isSome || b.content.isSome
              let note' : Note :=
                { note with
                  title := tOpt.getD note.title,
                  content := b.content.getD note.content,
                  updatedAt := if dirty then now else note.updatedAt }
              let notes' :=
                st.notes.map (fun n => if n.id == note.id then note' else n)
              let st' := { st with notes := notes' }
              ((200, Body.noteB (note_schema_dump st' note')), st')

/-- `NoteResource.delete`: removes the row by primary key. -/
def note_resource_delete (st : AppState) (sess : Session) (noteId : Nat) :
    Response × AppState :=
  match sess.userId with
  | none => ((401, Body.errorB "Authentication required"), st)
  | some uid =>
    match st.users.find? (fun u => u.id == uid) with
    | none => ((500, Body.errorsB ["Failed to delete note"]), st)
    | some user =>
      match note_lookup st noteId user.id with
      | none => ((404, Body.errorB "Note not found"), st)
      | some note =>
        ((204, Body.emptyB),
         { st with notes := st.notes.filter (fun n => n.id != note.id) })

/-! ## Response accessors and concrete fixtures -/

/-- Extract the pagination metadata from a `GET /notes` response. -/
def response_pagination : Response → Option PaginationMeta
  | (_, Body.pageB pg) => some pg.pagination
  | _ => none

/-- Extract the serialized items from a `GET /notes` response. -/
def response_notes : Response → Option (List NoteExt)
  | (_, Body.pageB pg) => some pg.notes
  | _ => none

/-- Fixture: user 1 (alice). -/
def fixUserA : User :=
  { id := 1, username := "alice", email := "alice@example.com",
    passwordHash := some (generate_password_hash "password123"),
    createdAt := 0 }

/-- Fixture: user 2 (bob). -/
def fixUserB : User :=
  { id := 2, username := "bob", email := "bob@example.com",
    passwordHash := some (generate_password_hash "password123"),
    createdAt := 0 }

/-- Fixture: note 1, owned by alice, last touched at instant 5. -/
def fixNote1 : Note :=
  { id := 1, title := "shopping", content := "milk", createdAt := 0,
    updatedAt := 5, userId := 1 }

/-- Fixture: note 2, owned by alice, also last touched at instant 5. -/
def fixNote2 : Note :=
  { id := 2, title := "chores", content := "mow", createdAt := 0,
    updatedAt := 5, userId := 1 }

/-- Fixture: a two-user, two-note database. -/
def fixState : AppState :=
  { users := [fixUserA, fixUserB], notes := [fixNote1, fixNote2],
    nextUserId := 3, nextNoteId := 3 }

/-- Fixture: a session authenticated as alice. -/
def fixSessA : Session := { userId := some 1 }

/-- Fixture: a session authenticated as bob. -/
def fixSessB : Session := { userId := some 2 }

/-! ## Characterization targets

Standalone descriptions of what the handlers produce, stated for comparison
against the handler definitions above. -/

/-- The user row a successful signup inserts. -/
def signup_new_user (st : AppState) (un em pw : String) (now : Nat) : User :=
  { id := st.nextUserId, username := pyStrip un,
    email := pyStrip (pyLower em),
    passwordHash := some (generate_password_hash pw), createdAt := now }

/-- The per-page value the handler and paginator actually produce, stated as
a standalone function of the request argument: missing defaults to 10, above
100 is capped to 100, and a non-positive value is replaced by the paginator's
own default of 20 (not 10). -/
def expectedPerPage : Option Int → Nat
  | none => 10
  | some v => if 100 < v then 100 else if v < 1 then 20 else v.toNat

/-- The page value actually produced: missing defaults to 1 and non-positive
values are clamped to 1. -/
def expectedPage : Option Int → Nat
  | none => 1
  | some v => if v < 1 then 1 else v.toNat

/-- The note row a successful create inserts for `user`. -/
def created_note (st : AppState) (user : User) (t : String)
    (c : Option String) (now : Nat) : Note :=
  { id := st.nextNoteId, title := pyStrip t, content := c.getD "",
    createdAt := now, updatedAt := now, userId := user.id }

/-- The note row a successful, field-carrying patch leaves behind: present
fields applied (title stored trimmed), absent fields untouched, `updatedAt`
refreshed to the request instant. -/
def patched_note (note : Note) (b : NoteBody) (now : Nat) : Note :=
  { note with
    title := match b.title with | some t => pyStrip t | none => note.title,
    content := b.content.getD note.content,
    updatedAt := now }

/-- The state a successful, field-carrying patch leaves behind. -/
def patched_state (st : AppState) (note : Note) (b : NoteBody) (now : Nat) :
    AppState :=
  let notes' :=
    st.notes.map (fun n => if n.id == note.id then patched_note note b now else n)
  { st with notes := notes' }

/-- The pair order the spec claims for adjacent listing items: `updatedAt`
descending with ties broken by id descending.  This definition follows the
spec's words, for comparison with the order the code produces. -/
def specClaimedOrder (a c : NoteExt) : Bool :=
  c.updatedAt < a.updatedAt || (a.updatedAt == c.updatedAt && c.id < a.id)

/-! ## Theorems -/

/-- C2: the serialized external form of a user contains exactly
`id`, `username`, `email`, `createdAt` (the codomain `UserExt` of
`user_schema_dump` has no other field), and the password hash is never
present: two users differing only in their password hash serialize to the
same external form. -/
theorem C2_user_dump_hides_password_hash (u : User) (h h' : Option String) :
    user_schema_dump { u with passwordHash := h } =
      user_schema_dump { u with passwordHash := h' } := rfl

/-- C8 counterexample: the `password_hash` setter, given an empty plaintext,
does not refuse the attempt — it returns without raising (`Except.ok`, not
`Except.error`) and silently leaves the stored hash unchanged (here: still
absent). -/
theorem C8_counterexample :
    password_hash_set
        { id := 7, username := "carol", email := "carol@example.com",
          passwordHash := none, createdAt := 0 } "" =
      Except.ok
        { id := 7, username := "carol", email := "carol@example.com",
          passwordHash := none, createdAt := 0 } := rfl

/-- C8 amended: on an empty plaintext the setter produces no digest — the
user record is returned unchanged — but the attempt is silently ignored
rather than refused: the result is `Except.ok`, never an exception. (The
empty-password case is instead refused earlier, at the signup boundary, by
the missing-fields check.) -/
theorem C8_empty_password_silently_ignored (u : User) :
    password_hash_set u "" = Except.ok u := rfl

/-- The shared 404 precondition of C1: every note carrying the requested id
(if any) belongs to someone other than the caller — this covers both the
nonexistent-id case and the owned-by-another-user case. -/
theorem note_lookup_eq_none {st : AppState} {noteId uid : Nat}
    (h : ∀ n ∈ st.notes, n.id = noteId → n.userId ≠ uid) :
    note_lookup st noteId uid = none := by
  apply List.find?_eq_none.mpr
  intro n hn
  simp only [Bool.and_eq_true, beq_iff_eq, not_and]
  exact h n hn

/-- C1: ownership isolation.  For an authenticated caller, whenever no note
carries the requested id or every note carrying it is owned by another user,
`GET`, `PATCH` and `DELETE` on that note id all return the same 404
`Note not found` response (the two cases are observably identical) and leave
the state unchanged. -/
theorem C1_ownership_isolation
    (st : AppState) (sess : Session) (uid : Nat) (user : User) (noteId : Nat)
    (h1 : sess.userId = some uid)
    (h2 : st.users.find? (fun u => u.id == uid) = some user)
    (h3 : ∀ n ∈ st.notes, n.id = noteId → n.userId ≠ user.id) :
    note_resource_get st sess noteId = (404, Body.errorB "Note not found") ∧
    (∀ data now, note_resource_patch st sess noteId data now =
      ((404, Body.errorB "Note not found"), st)) ∧
    note_resource_delete st sess noteId =
      ((404, Body.errorB "Note not found"), st) := by
  have hlook := note_lookup_eq_none h3
  refine ⟨?_, fun data now => ?_, ?_⟩ <;>
    simp [note_resource_get, note_resource_patch, note_resource_delete,
      h1, h2, hlook]

/-- C1 witness: in the two-user fixture, bob (user 2) requesting alice's
note 1 gets 404 from all three handlers, with the state untouched. -/
theorem C1_witness :
    note_resource_get fixState fixSessB 1 =
      (404, Body.errorB "Note not found") ∧
    note_resource_patch fixState fixSessB 1
        (some { title := some "hack", content := none, extra := false }) 9 =
      ((404, Body.errorB "Note not found"), fixState) ∧
    note_resource_delete fixState fixSessB 1 =
      ((404, Body.errorB "Note not found"), fixState) := by
  obtain ⟨hg, hp, hd⟩ :=
    C1_ownership_isolation fixState fixSessB 2 fixUserB 1 rfl (by decide)
      (by decide)
  exact ⟨hg, hp _ _, hd⟩

/-! ## Signup characterization -/

/-- A non-empty string is truthy. -/
theorem strTruthy_some {s : String} (h : s ≠ "") : strTruthy (some s) = true := by
  simp [strTruthy, h]

/-- A username whose trimmed length reaches 3 is non-empty. -/
theorem ne_empty_of_strip_len {s : String} (h : 3 ≤ pyLen (pyStrip s)) :
    s ≠ "" := by
  intro he; subst he; simp [pyStrip, pyLen] at h

/-- A string containing `@` is non-empty. -/
theorem ne_empty_of_contains_at {s : String} (h : pyContains s '@' = true) :
    s ≠ "" := by
  intro he; subst he; simp [pyContains] at h

/-- Full characterization of a conflict-free, well-formed signup: it returns
201 with the dumped new user, appends exactly that user row, bumps the id
counter, and logs the session in as the new user's id. -/
theorem signup_success
    (st : AppState) (sess : Session) (un em pw : String) (ex : Bool)
    (now : Nat)
    (hun : 3 ≤ pyLen (pyStrip un))
    (hem : pyContains em '@' = true)
    (hpw : pw ≠ "")
    (hcu : ∀ u ∈ st.users, u.username ≠ pyStrip un)
    (hce : ∀ u ∈ st.users, u.email ≠ pyStrip (pyLower em)) :
    signup st sess
        (some { username := some un, email := some em, password := some pw,
                extra := ex }) now =
      ((201, Body.userB (user_schema_dump (signup_new_user st un em pw now))),
       { st with users := st.users ++ [signup_new_user st un em pw now],
                 nextUserId := st.nextUserId + 1 },
       { userId := some st.nextUserId }) := by
  have hun0 : un ≠ "" := ne_empty_of_strip_len hun
  have hem0 : em ≠ "" := ne_empty_of_contains_at hem
  have hvu : validate_username un = Except.ok (pyStrip un) := by
    unfold validate_username
    rw [if_neg]
    push_neg
    exact ⟨hun0, by omega⟩
  have hve : validate_email em = Except.ok (pyStrip (pyLower em)) := by
    unfold validate_email
    rw [if_neg]
    rintro (h | h)
    · exact hem0 h
    · exact h hem
  have hau : st.users.any (fun u => u.username == pyStrip un) = false := by
    rw [List.any_eq_false]
    intro u hu
    simpa using hcu u hu
  have hae : st.users.any (fun u => u.email == pyStrip (pyLower em)) = false := by
    rw [List.any_eq_false]
    intro u hu
    simpa using hce u hu
  simp [signup, SignupData.truthy, strTruthy_some hun0, strTruthy_some hem0,
    strTruthy_some hpw, hvu, hve, password_hash_set, hpw, hau, hae,
    signup_new_user]

/-- C9: a successful signup immediately establishes a session for the newly
created user: the response is 201, exactly the new user row (with id
`st.nextUserId`) is appended, the session's user id is set to that id, and
`get_current_user` then resolves the session to the new row, so subsequent
note operations are authenticated without a separate login. -/
theorem C9_signup_establishes_session
    (st : AppState) (sess : Session) (un em pw : String) (ex : Bool)
    (now : Nat)
    (hun : 3 ≤ pyLen (pyStrip un))
    (hem : pyContains em '@' = true)
    (hpw : pw ≠ "")
    (hcu : ∀ u ∈ st.users, u.username ≠ pyStrip un)
    (hce : ∀ u ∈ st.users, u.email ≠ pyStrip (pyLower em))
    (hid : ∀ u ∈ st.users, u.id ≠ st.nextUserId) :
    (signup st sess
        (some { username := some un, email := some em, password := some pw,
                extra := ex }) now).1.1 = 201 ∧
    (signup st sess
        (some { username := some un, email := some em, password := some pw,
                extra := ex }) now).2.1.users =
      st.users ++ [signup_new_user st un em pw now] ∧
    (signup st sess
        (some { username := some un, email := some em, password := some pw,
                extra := ex }) now).2.2.userId =
      some (signup_new_user st un em pw now).id ∧
    get_current_user
        (signup st sess
          (some { username := some un, email := some em, password := some pw,
                  extra := ex }) now).2.1
        (signup st sess
          (some { username := some un, email := some em, password := some pw,
                  extra := ex }) now).2.2 =
      some (signup_new_user st un em pw now) := by
  rw [signup_success st sess un em pw ex now hun hem hpw hcu hce]
  refine ⟨rfl, rfl, rfl, ?_⟩
  have hnone : st.users.find? (fun u => u.id == st.nextUserId) = none := by
    apply List.find?_eq_none.mpr
    intro u hu
    simpa using hid u hu
  simp [get_current_user, List.find?_append, hnone, signup_new_user]

/-- C9 witness: carol signs up against the two-user fixture and is
immediately the authenticated current user. -/
theorem C9_witness :
    (signup fixState { userId := none }
        (some { username := some "carol", email := some "Carol@Example.com",
                password := some "pw123", extra := false }) 7).2.2.userId =
      some (signup_new_user fixState "carol" "Carol@Example.com" "pw123" 7).id ∧
    get_current_user
        (signup fixState { userId := none }
          (some { username := some "carol", email := some "Carol@Example.com",
                  password := some "pw123", extra := false }) 7).2.1
        (signup fixState { userId := none }
          (some { username := some "carol", email := some "Carol@Example.com",
                  password := some "pw123", extra := false }) 7).2.2 =
      some (signup_new_user fixState "carol" "Carol@Example.com" "pw123" 7) := by
  obtain ⟨-, -, h3, h4⟩ :=
    C9_signup_establishes_session fixState { userId := none } "carol"
      "Carol@Example.com" "pw123" false 7 (by decide) (by decide) (by decide)
      (by decide) (by decide) (by decide)
  exact ⟨h3, h4⟩

/-- C7: a well-formed `(username, email, password)` triple (trimmed username
length at least 3, email containing `@`, non-empty password) with no existing
conflict registers successfully exactly once: the first signup returns 201
and appends the new user row; any second well-formed signup with the same
username — whatever its email, password, session, or clock — fails with the
422 `Username already exists` conflict naming the username field, and leaves
the user table exactly as the first signup left it (no partial record). -/
theorem C7_register_unique_username
    (st : AppState) (sess : Session) (un em pw : String) (ex : Bool)
    (now : Nat)
    (hun : 3 ≤ pyLen (pyStrip un))
    (hem : pyContains em '@' = true)
    (hpw : pw ≠ "")
    (hcu : ∀ u ∈ st.users, u.username ≠ pyStrip un)
    (hce : ∀ u ∈ st.users, u.email ≠ pyStrip (pyLower em))
    (em2 pw2 : String)
    (hem2 : pyContains em2 '@' = true)
    (hpw2 : pw2 ≠ "") :
    signup st sess
        (some { username := some un, email := some em, password := some pw,
                extra := ex }) now =
      ((201, Body.userB (user_schema_dump (signup_new_user st un em pw now))),
       { st with users := st.users ++ [signup_new_user st un em pw now],
                 nextUserId := st.nextUserId + 1 },
       { userId := some st.nextUserId }) ∧
    ∀ (sess2 : Session) (now2 : Nat) (ex2 : Bool),
      signup
          { st with users := st.users ++ [signup_new_user st un em pw now],
                    nextUserId := st.nextUserId + 1 }
          sess2
          (some { username := some un, email := some em2,
                  password := some pw2, extra := ex2 }) now2 =
        ((422, Body.errorsB ["Username already exists"]),
         { st with users := st.users ++ [signup_new_user st un em pw now],
                   nextUserId := st.nextUserId + 1 },
         sess2) := by
  refine ⟨signup_success st sess un em pw ex now hun hem hpw hcu hce,
    fun sess2 now2 ex2 => ?_⟩
  have hun0 : un ≠ "" := ne_empty_of_strip_len hun
  have hem20 : em2 ≠ "" := ne_empty_of_contains_at hem2
  have hvu : validate_username un = Except.ok (pyStrip un) := by
    unfold validate_username
    rw [if_neg]
    push_neg
    exact ⟨hun0, by omega⟩
  have hve2 : validate_email em2 = Except.ok (pyStrip (pyLower em2)) := by
    unfold validate_email
    rw [if_neg]
    rintro (h | h)
    · exact hem20 h
    · exact h hem2
  have hany :
      (st.users ++ [signup_new_user st un em pw now]).any
        (fun u => u.username == pyStrip un) = true := by
    rw [List.any_append]
    simp [signup_new_user]
  simp [signup, SignupData.truthy, strTruthy_some hun0, strTruthy_some hem20,
    strTruthy_some hpw2, hvu, hve2, password_hash_set, hpw2, hany]

/-- C7 witness: carol registers once against the two-user fixture; a second
registration of `carol` with a different email then fails with the username
conflict and leaves the table as it was after the first. -/
theorem C7_witness :
    signup fixState { userId := none }
        (some { username := some "carol", email := some "c@a.com",
                password := some "pw123", extra := false }) 7 =
      ((201, Body.userB
         (user_schema_dump (signup_new_user fixState "carol" "c@a.com" "pw123" 7))),
       { fixState with
           users := fixState.users ++
             [signup_new_user fixState "carol" "c@a.com" "pw123" 7],
           nextUserId := fixState.nextUserId + 1 },
       { userId := some fixState.nextUserId }) ∧
    signup
        { fixState with
            users := fixState.users ++
              [signup_new_user fixState "carol" "c@a.com" "pw123" 7],
            nextUserId := fixState.nextUserId + 1 }
        { userId := none }
        (some { username := some "carol", email := some "other@b.com",
                password := some "zz999", extra := false }) 8 =
      ((422, Body.errorsB ["Username already exists"]),
       { fixState with
           users := fixState.users ++
             [signup_new_user fixState "carol" "c@a.com" "pw123" 7],
           nextUserId := fixState.nextUserId + 1 },
       { userId := none }) := by
  obtain ⟨h1, h2⟩ :=
    C7_register_unique_username fixState { userId := none } "carol" "c@a.com"
      "pw123" false 7 (by decide) (by decide) (by decide) (by decide)
      (by decide) "other@b.com" "zz999" (by decide) (by decide)
  exact ⟨h1, h2 { userId := none } 8 false⟩

/-! ## Pagination clamping -/

/-- C3 counterexample: a request with `per_page = -5` (non-positive) comes
back with `per_page = 20` in the pagination metadata — the paginator's
default — not the 10 the claim asserts. -/
theorem C3_counterexample :
    response_pagination (notes_resource_get fixState fixSessA none (some (-5))) =
      some { page := 1, perPage := 20, total := 2, totalPages := 1,
             hasNext := false, hasPrev := false } ∧
    ¬ ((response_pagination
          (notes_resource_get fixState fixSessA none (some (-5)))).map
        (fun m => m.perPage) = some 10) := by decide

/-- C3 amended: for every authenticated listing request, the returned
metadata's `per_page` is: the request value when it lies in `[1, 100]`,
100 when the request exceeds 100, 10 when the parameter is missing, and the
paginator default 20 when the request is non-positive; the returned `page`
defaults to 1 when missing and is clamped to 1 when non-positive. -/
theorem C3_perPage_clamping
    (st : AppState) (sess : Session) (uid : Nat) (user : User)
    (pa ppa : Option Int)
    (h1 : sess.userId = some uid)
    (h2 : st.users.find? (fun u => u.id == uid) = some user) :
    notes_resource_get st sess pa ppa =
      (200, Body.pageB (notes_index st user pa ppa)) ∧
    (notes_index st user pa ppa).pagination.perPage = expectedPerPage ppa ∧
    (notes_index st user pa ppa).pagination.page = expectedPage pa := by
  refine ⟨by simp [notes_resource_get, h1, h2], ?_, ?_⟩
  · cases ppa with
    | none => simp [notes_index, expectedPerPage]
    | some v =>
      simp only [notes_index, expectedPerPage, Option.getD_some]
      rw [min_def]
      split_ifs <;> omega
  · cases pa with
    | none => simp [notes_index, expectedPage]
    | some v =>
      simp only [notes_index, expectedPage, Option.getD_some]
      split_ifs <;> omega

/-- C3 witness: alice requests `page = 0`, `per_page = 1000`; the metadata
shows `per_page = 100` (capped) and `page = 1` (clamped). -/
theorem C3_witness :
    notes_resource_get fixState fixSessA (some 0) (some 1000) =
      (200, Body.pageB (notes_index fixState fixUserA (some 0) (some 1000))) ∧
    (notes_index fixState fixUserA (some 0) (some 1000)).pagination.perPage =
      expectedPerPage (some 1000) ∧
    (notes_index fixState fixUserA (some 0) (some 1000)).pagination.page =
      expectedPage (some 0) :=
  C3_perPage_clamping fixState fixSessA 1 fixUserA (some 0) (some 1000) rfl
    (by decide)

/-! ## Note creation validation -/

/-- A string with a non-empty strip is non-empty. -/
theorem ne_empty_of_strip_pos {s : String} (h : 0 < pyLen (pyStrip s)) :
    s ≠ "" := by
  intro he; subst he; simp [pyStrip, pyLen] at h

/-- C4 counterexample: a whitespace-only title `" "` is truthy in Python, so
it passes the handler's presence check and instead fails the store-level
`validate_title` — the response is 422, not the 400 the claim asserts for
every blank title. -/
theorem C4_counterexample :
    notes_resource_post fixState fixSessA
        (some { title := some " ", content := none, extra := false }) 9 =
      ((422, Body.errorsB ["Note title is required"]), fixState) ∧
    (notes_resource_post fixState fixSessA
        (some { title := some " ", content := none, extra := false }) 9).1.1
      ≠ 400 := by decide

/-- C4 amended: for an authenticated caller, a missing or empty-string title
fails with status 400 and no state change (either `No data provided` or
`Title is required`, both 400); a non-empty but whitespace-only title passes
the presence check and fails the store-level validation with 422, again with
no state change; and a title that is non-empty after trimming (and at most
200 characters) creates a note owned by the caller, returning 201. -/
theorem C4_create_title_validation
    (st : AppState) (sess : Session) (uid : Nat) (user : User) (now : Nat)
    (h1 : sess.userId = some uid)
    (h2 : st.users.find? (fun u => u.id == uid) = some user) :
    (∀ b : NoteBody, strTruthy b.title = false →
       (notes_resource_post st sess (some b) now).1.1 = 400 ∧
       (notes_resource_post st sess (some b) now).2 = st) ∧
    (∀ (t : String) (c : Option String) (ex : Bool),
       t ≠ "" → pyLen (pyStrip t) = 0 →
       notes_resource_post st sess
           (some { title := some t, content := c, extra := ex }) now =
         ((422, Body.errorsB ["Note title is required"]), st)) ∧
    (∀ (t : String) (c : Option String) (ex : Bool),
       1 ≤ pyLen (pyStrip t) → pyLen (pyStrip t) ≤ 200 →
       notes_resource_post st sess
           (some { title := some t, content := c, extra := ex }) now =
         ((201, Body.noteB (note_schema_dump
            { st with notes := st.notes ++ [created_note st user t c now],
                      nextNoteId := st.nextNoteId + 1 }
            (created_note st user t c now))),
          { st with notes := st.notes ++ [created_note st user t c now],
                    nextNoteId := st.nextNoteId + 1 })) := by
  refine ⟨fun b hb => ?_, fun t c ex ht0 ht => ?_, fun t c ex ht1 ht2 => ?_⟩
  · cases htr : b.truthy <;>
      simp [notes_resource_post, h1, htr, hb]
  · have htt : strTruthy (some t) = true := strTruthy_some ht0
    have hvt : validate_title t = Except.error "Note title is required" := by
      unfold validate_title
      rw [if_pos (Or.inr (by omega))]
    simp [notes_resource_post, h1, h2, NoteBody.truthy, htt, hvt]
  · have ht0 : t ≠ "" := ne_empty_of_strip_pos (by omega)
    have htt : strTruthy (some t) = true := strTruthy_some ht0
    have hvt : validate_title t = Except.ok (pyStrip t) := by
      unfold validate_title
      rw [if_neg (by push_neg; exact ⟨ht0, by omega⟩), if_neg (by omega)]
    simp [notes_resource_post, h1, h2, NoteBody.truthy, htt, hvt,
      created_note]

/-- C4 witness: alice posts the title `" Buy milk "`, which creates a note
she owns with the trimmed title; posting the empty-string title yields 400
with no state change. -/
theorem C4_witness :
    notes_resource_post fixState fixSessA
        (some { title := some " Buy milk ", content := some "2 liters",
                extra := false }) 9 =
      ((201, Body.noteB (note_schema_dump
         { fixState with
             notes := fixState.notes ++
               [created_note fixState fixUserA " Buy milk " (some "2 liters") 9],
             nextNoteId := fixState.nextNoteId + 1 }
         (created_note fixState fixUserA " Buy milk " (some "2 liters") 9))),
       { fixState with
           notes := fixState.notes ++
             [created_note fixState fixUserA " Buy milk " (some "2 liters") 9],
           nextNoteId := fixState.nextNoteId + 1 }) ∧
    (notes_resource_post fixState fixSessA
        (some { title := some "", content := some "x", extra := false })
        9).1.1 = 400 := by
  obtain ⟨ha, -, hc⟩ :=
    C4_create_title_validation fixState fixSessA 1 fixUserA 9 rfl (by decide)
  exact ⟨hc " Buy milk " (some "2 liters") false (by decide) (by decide),
    (ha { title := some "", content := some "x", extra := false }
      (by decide)).1⟩

/-! ## Partial update: frame and `updatedAt` -/

/-- C5 counterexample: a PATCH whose non-empty body carries neither `title`
nor `content` succeeds (200) yet leaves the note's `updatedAt` exactly where
it was (5, with the clock already at 9) — so `updatedAt` does not strictly
increase on every successful update. -/
theorem C5_counterexample :
    note_resource_patch fixState fixSessA 1
        (some { title := none, content := none, extra := true }) 9 =
      ((200, Body.noteB (note_schema_dump fixState fixNote1)), fixState) ∧
    ((note_resource_patch fixState fixSessA 1
        (some { title := none, content := none, extra := true }) 9).2.notes.find?
          (fun n => n.id == 1)).map (fun n => n.updatedAt) =
      some fixNote1.updatedAt ∧
    fixNote1.updatedAt = 5 := by decide

/-- C5 amended: for every successful `updateNote` whose body carries at
least one of `title` / `content`, the note's `updatedAt` is refreshed to the
request instant and hence strictly exceeds its prior value (the clock having
advanced past it), and every field not present in the body — and the
identity fields — are unchanged.  (A successful update carrying neither
field leaves the note, `updatedAt` included, untouched.) -/
theorem C5_update_monotone_and_framed
    (st : AppState) (sess : Session) (uid : Nat) (user : User)
    (noteId : Nat) (note : Note) (b : NoteBody) (now : Nat)
    (h1 : sess.userId = some uid)
    (h2 : st.users.find? (fun u => u.id == uid) = some user)
    (h3 : note_lookup st noteId user.id = some note)
    (hd : b.title.isSome = true ∨ b.content.isSome = true)
    (hv : ∀ t, b.title = some t →
            1 ≤ pyLen (pyStrip t) ∧ pyLen (pyStrip t) ≤ 200)
    (hnow : note.updatedAt < now) :
    note_resource_patch st sess noteId (some b) now =
      ((200, Body.noteB
          (note_schema_dump (patched_state st note b now)
            (patched_note note b now))),
       patched_state st note b now) ∧
    note.updatedAt < (patched_note note b now).updatedAt ∧
    (b.title = none → (patched_note note b now).title = note.title) ∧
    (b.content = none → (patched_note note b now).content = note.content) ∧
    (patched_note note b now).id = note.id ∧
    (patched_note note b now).createdAt = note.createdAt ∧
    (patched_note note b now).userId = note.userId := by
  have htr : b.truthy = true := by
    rcases hd with h | h <;> simp [NoteBody.truthy, h]
  refine ⟨?_, hnow, fun h => by simp [patched_note, h],
    fun h => by simp [patched_note, h], rfl, rfl, rfl⟩
  cases hbt : b.title with
  | none =>
    have hcs : b.content.isSome = true := by
      rcases hd with h | h
      · rw [hbt] at h; cases h
      · exact h
    simp [note_resource_patch, h1, h2, h3, htr, hbt, hcs, patched_note,
      patched_state, Except.map]
  | some t =>
    have ht0 : t ≠ "" := ne_empty_of_strip_pos (by have := (hv t hbt).1; omega)
    have hvt : validate_title t = Except.ok (pyStrip t) := by
      unfold validate_title
      rw [if_neg (by push_neg; exact ⟨ht0, by have := (hv t hbt).1; omega⟩),
        if_neg (by have := (hv t hbt).2; omega)]
    simp [note_resource_patch, h1, h2, h3, htr, hbt, hvt, patched_note,
      patched_state, Except.map]

/-- C5 amended witness: alice patches note 1 with a new title only; the
response is 200, `updatedAt` moves from 5 to 9, and content, id, createdAt
and owner are untouched. -/
theorem C5_witness :
    note_resource_patch fixState fixSessA 1
        (some { title := some " New title ", content := none,
                extra := false }) 9 =
      ((200, Body.noteB
          (note_schema_dump
            (patched_state fixState fixNote1
              { title := some " New title ", content := none, extra := false }
              9)
            (patched_note fixNote1
              { title := some " New title ", content := none, extra := false }
              9))),
       patched_state fixState fixNote1
         { title := some " New title ", content := none, extra := false } 9) ∧
    fixNote1.updatedAt <
      (patched_note fixNote1
        { title := some " New title ", content := none, extra := false }
        9).updatedAt ∧
    (patched_note fixNote1
      { title := some " New title ", content := none, extra := false }
      9).content = fixNote1.content := by
  obtain ⟨he, hlt, -, hc, -, -, -⟩ :=
    C5_update_monotone_and_framed fixState fixSessA 1 fixUserA 1 fixNote1
      { title := some " New title ", content := none, extra := false } 9 rfl
      (by decide) (by decide) (Or.inl (by decide))
      (by intro t ht; cases ht; exact ⟨by decide, by decide⟩) (by decide)
  exact ⟨he, hlt, hc rfl⟩

/-- Distinct ids identify rows: in a table whose rows have pairwise distinct
ids, two member rows with equal ids are the same row. -/
theorem eq_of_mem_pairwise_ne_id {l : List Note}
    (hp : l.Pairwise (fun a c => a.id ≠ c.id)) {a c : Note}
    (ha : a ∈ l) (hc : c ∈ l) (h : a.id = c.id) : a = c := by
  induction l with
  | nil => cases ha
  | cons x xs ih =>
    rcases List.mem_cons.mp ha with rfl | ha' <;>
      rcases List.mem_cons.mp hc with rfl | hc'
    · rfl
    · exact absurd h ((List.pairwise_cons.mp hp).1 c hc')
    · exact absurd h.symm ((List.pairwise_cons.mp hp).1 a ha')
    · exact ih (List.pairwise_cons.mp hp).2 ha' hc'

/-- C10: a PATCH whose body is a non-empty JSON object carrying neither
`title` nor `content` succeeds with 200 and leaves the state — the note and
its `updatedAt` included — entirely unchanged: the row is never marked
dirty, so the commit writes nothing and `onupdate` never fires. -/
theorem C10_empty_field_patch_is_noop
    (st : AppState) (sess : Session) (uid : Nat) (user : User)
    (noteId : Nat) (note : Note) (now : Nat)
    (h1 : sess.userId = some uid)
    (h2 : st.users.find? (fun u => u.id == uid) = some user)
    (h3 : note_lookup st noteId user.id = some note)
    (hids : st.notes.Pairwise (fun a c => a.id ≠ c.id)) :
    note_resource_patch st sess noteId
        (some { title := none, content := none, extra := true }) now =
      ((200, Body.noteB (note_schema_dump st note)), st) := by
  have hmem : note ∈ st.notes := List.mem_of_find?_eq_some h3
  have hmap : st.notes.map (fun n => if n.id == note.id then note else n) =
      st.notes := by
    rw [List.map_congr_left (g := fun n => n)]
    · exact List.map_id' st.notes
    · intro n hn
      by_cases h : n.id = note.id
      · simp [h, eq_of_mem_pairwise_ne_id hids hn hmem h]
      · simp [h]
  have key : note_resource_patch st sess noteId
      (some { title := none, content := none, extra := true }) now =
      ((200, Body.noteB (note_schema_dump
          { st with notes := st.notes.map (fun n => if n.id == note.id then note else n) } note)),
       { st with notes := st.notes.map (fun n => if n.id == note.id then note else n) }) := by
    simp only [note_resource_patch, h1, h2, h3]
    rfl
  rw [key, hmap]

/-- C10 witness: alice patches note 1 with the body `{'pinned': true}` —
truthy, but carrying neither recognized field — and gets 200 with nothing
changed. -/
theorem C10_witness :
    note_resource_patch fixState fixSessA 1
        (some { title := none, content := none, extra := true }) 11 =
      ((200, Body.noteB (note_schema_dump fixState fixNote1)), fixState) :=
  C10_empty_field_patch_is_noop fixState fixSessA 1 fixUserA 1 fixNote1 11
    rfl (by decide) (by decide) (by decide)

/-! ## Listing order -/

/-- Membership in an insertion step. -/
theorem mem_insertByUpdatedDesc {x n : Note} {l : List Note} :
    x ∈ insertByUpdatedDesc n l ↔ x = n ∨ x ∈ l := by
  induction l with
  | nil => simp [insertByUpdatedDesc]
  | cons m ms ih =>
    by_cases h : n.updatedAt ≥ m.updatedAt
    · simp [insertByUpdatedDesc, h]
    · simp [insertByUpdatedDesc, h, ih]
      tauto

/-- An insertion step preserves the descending-`updatedAt` invariant. -/
theorem pairwise_insertByUpdatedDesc {n : Note} {l : List Note}
    (h : l.Pairwise (fun a c => c.updatedAt ≤ a.updatedAt)) :
    (insertByUpdatedDesc n l).Pairwise
      (fun a c => c.updatedAt ≤ a.updatedAt) := by
  induction l with
  | nil => simp [insertByUpdatedDesc]
  | cons m ms ih =>
    rcases List.pairwise_cons.mp h with ⟨hm, hms⟩
    by_cases hcmp : n.updatedAt ≥ m.updatedAt
    · rw [insertByUpdatedDesc, if_pos hcmp]
      refine List.pairwise_cons.mpr ⟨?_, h⟩
      intro x hx
      rcases List.mem_cons.mp hx with rfl | hx'
      · exact hcmp
      · exact le_trans (hm x hx') hcmp
    · rw [insertByUpdatedDesc, if_neg hcmp]
      refine List.pairwise_cons.mpr ⟨?_, ih hms⟩
      intro x hx
      rcases mem_insertByUpdatedDesc.mp hx with rfl | hx'
      · omega
      · exact hm x hx'

/-- The modelled `ORDER BY updated_at DESC` output is sorted by `updatedAt`
descending. -/
theorem sortByUpdatedDesc_pairwise (l : List Note) :
    (sortByUpdatedDesc l).Pairwise (fun a c => c.updatedAt ≤ a.updatedAt) := by
  induction l with
  | nil => simp [sortByUpdatedDesc]
  | cons n ns ih =>
    rw [sortByUpdatedDesc]
    exact pairwise_insertByUpdatedDesc ih

/-- Under an exact-`updatedAt` filter, inserting behaves like consing: the
insertion point only skips strictly more recent rows. -/
theorem filter_insertByUpdatedDesc (n : Note) (l : List Note) (t : Nat) :
    (insertByUpdatedDesc n l).filter (fun x => x.updatedAt == t) =
      ((n :: l).filter (fun x => x.updatedAt == t)) := by
  induction l with
  | nil => rfl
  | cons m ms ih =>
    by_cases hcmp : n.updatedAt ≥ m.updatedAt
    · rw [insertByUpdatedDesc, if_pos hcmp]
    · rw [insertByUpdatedDesc, if_neg hcmp]
      by_cases hn : n.updatedAt = t
      · have hm : ¬ m.updatedAt = t := by omega
        simp [List.filter_cons, hn, hm, ih]
      · simp [List.filter_cons, hn, ih]

/-- Stability: the sort leaves the relative (stored) order of rows sharing an
`updatedAt` value untouched. -/
theorem filter_sortByUpdatedDesc (l : List Note) (t : Nat) :
    (sortByUpdatedDesc l).filter (fun x => x.updatedAt == t) =
      l.filter (fun x => x.updatedAt == t) := by
  induction l with
  | nil => rfl
  | cons n ns ih =>
    rw [sortByUpdatedDesc, filter_insertByUpdatedDesc]
    simp [List.filter_cons, ih]

/-- C6 counterexample: alice's notes 1 and 2 share `updatedAt = 5`; the
listing returns them in stored order — id 1 before id 2 — so the adjacent
pair violates the claimed id-descending tie-break. -/
theorem C6_counterexample :
    response_notes (notes_resource_get fixState fixSessA none none) =
      some [note_schema_dump fixState fixNote1,
            note_schema_dump fixState fixNote2] ∧
    (note_schema_dump fixState fixNote1).updatedAt =
      (note_schema_dump fixState fixNote2).updatedAt ∧
    (note_schema_dump fixState fixNote1).id <
      (note_schema_dump fixState fixNote2).id ∧
    specClaimedOrder (note_schema_dump fixState fixNote1)
      (note_schema_dump fixState fixNote2) = false := by decide

/-- C6 amended: the query orders only by `updatedAt` descending — there is
no id tie-breaker.  Every authenticated listing's items are sorted by
`updatedAt` descending (non-strictly), and rows sharing an `updatedAt` value
keep their stored (insertion) order rather than being reordered by id. -/
theorem C6_listing_order
    (st : AppState) (sess : Session) (uid : Nat) (user : User)
    (pa ppa : Option Int)
    (h1 : sess.userId = some uid)
    (h2 : st.users.find? (fun u => u.id == uid) = some user) :
    notes_resource_get st sess pa ppa =
      (200, Body.pageB (notes_index st user pa ppa)) ∧
    (notes_index st user pa ppa).notes.Pairwise
      (fun a c => c.updatedAt ≤ a.updatedAt) ∧
    (∀ t : Nat,
      (sortByUpdatedDesc (st.notes.filter (fun n => n.userId == user.id))).filter
          (fun x => x.updatedAt == t) =
        (st.notes.filter (fun n => n.userId == user.id)).filter
          (fun x => x.updatedAt == t)) := by
  refine ⟨by simp [notes_resource_get, h1, h2], ?_,
    fun t => filter_sortByUpdatedDesc _ t⟩
  have hall : ∀ k p : Nat,
      ((((sortByUpdatedDesc
            (st.notes.filter (fun n => n.userId == user.id))).drop k).take
          p).map (note_schema_dump st)).Pairwise
        (fun a c => c.updatedAt ≤ a.updatedAt) := by
    intro k p
    apply List.pairwise_map.mpr
    exact ((sortByUpdatedDesc_pairwise _).sublist
      ((List.take_sublist _ _).trans (List.drop_sublist _ _)))
  simp only [notes_index]
  exact hall _ _

/-- C6 amended witness: alice's listing is sorted by `updatedAt` descending,
and her two `updatedAt = 5` notes come out exactly in stored order. -/
theorem C6_witness :
    notes_resource_get fixState fixSessA none none =
      (200, Body.pageB (notes_index fixState fixUserA none none)) ∧
    (notes_index fixState fixUserA none none).notes.Pairwise
      (fun a c => c.updatedAt ≤ a.updatedAt) ∧
    (sortByUpdatedDesc
        (fixState.notes.filter (fun n => n.userId == fixUserA.id))).filter
        (fun x => x.updatedAt == 5) =
      (fixState.notes.filter (fun n => n.userId == fixUserA.id)).filter
        (fun x => x.updatedAt == 5) := by
  obtain ⟨ha, hb, hc⟩ :=
    C6_listing_order fixState fixSessA 1 fixUserA none none rfl (by decide)
  exact ⟨ha, hb, hc 5⟩

end ProductivityApp
